import Mathlib

/-!
Shallow embedding of `src/simulacion.py` (class `SistemaControlMotor`), a
discrete-time closed-loop speed controller.  Machine floats are modelled by
exact rationals; `np.clip` is modelled by `clip` below.  Mutable instance
attributes become fields of the structure `Estado`; attributes the code never
reassigns after `__init__` become top-level constants.  History deques with
`maxlen = 150` become lists with an eviction-on-append operation.
-/

namespace SistemaControlMotor

/-- Model of `np.clip(x, lo, hi)` = `min(hi, max(x, lo))`. -/
def clip (x lo hi : ℚ) : ℚ := min (max x lo) hi

/-- Attribute `self.dt = 0.1` — fixed scan interval, set in `__init__`, never reassigned. -/
def dt : ℚ := 1/10

/-- Attribute `self.rpm_nominal = 5500`. -/
def rpm_nominal : ℚ := 5500

/-- Attribute `self.velocidad_min = 50`. -/
def velocidad_min : ℚ := 50

/-- Attribute `self.velocidad_max = 100`. -/
def velocidad_max : ℚ := 100

/-- Attribute `self.vss_vel_min = 50`. -/
def vss_vel_min : ℚ := 50

/-- Attribute `self.vss_vel_max = 100`. -/
def vss_vel_max : ℚ := 100

/-- Attribute `self.vss_volt_min = 0`. -/
def vss_volt_min : ℚ := 0

/-- Attribute `self.vss_volt_max = 5`. -/
def vss_volt_max : ℚ := 5

/-- Attribute `self.senal_ctrl_offset = 2.5`. -/
def senal_ctrl_offset : ℚ := 5/2

/-- Attribute `self.rango_offset_min = -2`. -/
def rango_offset_min : ℚ := -2

/-- Attribute `self.rango_offset_max = +1`. -/
def rango_offset_max : ℚ := 1

/-- Attribute `self.Kp = 4.0`. -/
def Kp : ℚ := 4

/-- Attribute `self.Ki = 0.2`. -/
def Ki : ℚ := 1/5

/-- Attribute `self.Kd = 0.8`. -/
def Kd : ℚ := 4/5

/-- Attribute `self.factor_atenuacion_perturbacion = 0.3`. -/
def factor_atenuacion_perturbacion : ℚ := 3/10

/-- Capacity `max_points = 150` — capacity of every history deque. -/
def max_points : ℕ := 150

/-- Append on a `deque(maxlen = cap)`: push right, evict leftmost when full. -/
def appendMax {α : Type} (cap : ℕ) (xs : List α) (x : α) : List α :=
  if cap ≤ xs.length then xs.tail ++ [x] else xs ++ [x]

/-- Conversion `velocidad_a_voltaje`: affine map speed → voltage, clamped to
`[vss_volt_min, vss_volt_max]`; returns 0 when the speed range is degenerate. -/
def velocidad_a_voltaje (velocidad : ℚ) : ℚ :=
  if vss_vel_max = vss_vel_min then 0
  else clip
    ((velocidad - vss_vel_min) / (vss_vel_max - vss_vel_min)
       * (vss_volt_max - vss_volt_min) + vss_volt_min)
    vss_volt_min vss_volt_max

/-- Conversion `voltaje_a_velocidad`: inverse affine map voltage → speed, not clamped;
returns `vss_vel_min` when the voltage range is degenerate. -/
def voltaje_a_velocidad (voltaje : ℚ) : ℚ :=
  if vss_volt_max = vss_volt_min then vss_vel_min
  else (voltaje - vss_volt_min) / (vss_volt_max - vss_volt_min)
         * (vss_vel_max - vss_vel_min) + vss_vel_min

/-- Conversion `error_volts_a_kmh`: rescale a voltage-domain error to km/h. -/
def error_volts_a_kmh (error_volts : ℚ) : ℚ :=
  error_volts * ((vss_vel_max - vss_vel_min) / (vss_volt_max - vss_volt_min))

/-- Conversion `senal_control_a_voltaje`: map the internal command (working range ±25)
onto 0–5 V centred at `senal_ctrl_offset`, clamped. -/
def senal_control_a_voltaje (senal_control_interna : ℚ) : ℚ :=
  let MAX_CTRL_INTERNA : ℚ := 25
  let senal_escalada :=
    clip senal_control_interna (-MAX_CTRL_INTERNA) MAX_CTRL_INTERNA
      * (senal_ctrl_offset / MAX_CTRL_INTERNA)
  clip (senal_escalada + senal_ctrl_offset) vss_volt_min vss_volt_max

/-- Shaper `aplicar_perturbacion_atenuada`: clamp the raw disturbance to
`[-100, 200]`, then attenuate by `factor_atenuacion_perturbacion`. -/
def aplicar_perturbacion_atenuada (perturbacion : ℚ) : ℚ :=
  clip perturbacion (-100) 200 * factor_atenuacion_perturbacion

/-- The guarded derivative quotient of step 4 of
`calcular_control_proporcional_inteligente`:
`(error_kmh - error_anterior_kmh) / dt if dt > 0 else 0`. -/
def derivativo_termino (d error_kmh error_anterior_kmh : ℚ) : ℚ :=
  if 0 < d then (error_kmh - error_anterior_kmh) / d else 0

/-- The mutable instance attributes of `SistemaControlMotor`, one field per
attribute assigned outside `__init__` (plus `perturbacion`, set only there). -/
structure Estado where
  velocidad_nominal : ℚ
  velocidad_actual : ℚ
  rpm_ctrl : ℚ
  rpm_reales : ℚ
  error_kmh : ℚ
  error_volts : ℚ
  senal_control_interna : ℚ
  senal_control_volts : ℚ
  perturbacion : ℚ
  retroalimentacion : ℚ
  tiempo_transcurrido : ℚ
  integral : ℚ
  error_anterior_kmh : ℚ
  velocidad_anterior : ℚ
  tendencia : ℚ
  historial_tiempo : List ℚ
  historial_entrada : List ℚ
  historial_salida : List ℚ
  historial_error_kmh : List ℚ
  historial_error_volts : List ℚ
  historial_control_volts : List ℚ
  historial_control_interna : List ℚ
  historial_perturbacion : List ℚ
  historial_retro : List ℚ
  historial_proporcional : List ℚ
  historial_integral : List ℚ
  historial_derivativo : List ℚ
  historial_rpm_ctrl : List ℚ
  historial_rpm_reales : List ℚ
  historial_en_rango : List Bool
  deriving Repr

/-- Band `get_rango_objetivo`: tolerance band `(nominal + offset_min, nominal + offset_max)`. -/
def get_rango_objetivo (velocidad_nominal : ℚ) : ℚ × ℚ :=
  (velocidad_nominal + rango_offset_min, velocidad_nominal + rango_offset_max)

/-- Predicate `esta_en_rango_objetivo`: `rango_min <= velocidad_actual <= rango_max`. -/
def esta_en_rango_objetivo (velocidad_nominal velocidad_actual : ℚ) : Bool :=
  let r := get_rango_objetivo velocidad_nominal
  decide (r.1 ≤ velocidad_actual) && decide (velocidad_actual ≤ r.2)

/-- The five values returned by `calcular_control_proporcional_inteligente`. -/
structure ResultadoControl where
  control : ℚ
  P : ℚ
  I : ℚ
  D : ℚ
  accion_correctiva : ℚ
  deriving Repr

/-- Controller `calcular_control_proporcional_inteligente(error_volts)`: the adaptive
PID-style law.  Mutates `tendencia`, `velocidad_anterior`, `integral` and
`error_anterior_kmh`; returns `(control, P, I, D, accion_correctiva)`. -/
def calcular_control_proporcional_inteligente (s : Estado) (error_volts : ℚ) :
    Estado × ResultadoControl :=
  let error_kmh := error_volts_a_kmh error_volts
  let rango := get_rango_objetivo s.velocidad_nominal
  -- 1. tendencia (guard: at least two samples in historial_salida)
  let tendencia :=
    if 2 ≤ s.historial_salida.length then
      (s.velocidad_actual - s.velocidad_anterior) / dt
    else s.tendencia
  let velocidad_anterior := s.velocidad_actual
  -- 2. gain-scheduled proportional term
  let en_rango := esta_en_rango_objetivo s.velocidad_nominal s.velocidad_actual
  let PE : ℚ × ℚ :=
    if ¬ en_rango then
      if rango.2 < s.velocidad_actual then
        (Kp * (3/2), s.velocidad_nominal - s.velocidad_actual)
      else
        (Kp * (13/10), s.velocidad_nominal - s.velocidad_actual)
    else
      let margen : ℚ := 3/10
      if s.velocidad_nominal + margen < s.velocidad_actual
          ∨ s.velocidad_actual < s.velocidad_nominal - margen then
        (Kp * (7/10), error_kmh)
      else (Kp, error_kmh)
  let P := PE.1 * PE.2
  -- 3. anti-windup integral
  let integral :=
    if en_rango ∧ |error_kmh| < 1 then
      clip (s.integral + error_kmh * dt * (1/50)) (-2) 2
    else s.integral * (9/10)
  let I := Ki * integral
  -- 4. derivative
  let D := Kd * derivativo_termino dt error_kmh s.error_anterior_kmh
  let control0 := P + I + D
  -- 5. predictive overshoot correction
  let velocidad_proyectada := s.velocidad_actual + tendencia * dt
  let accion_correctiva :=
    if rango.2 + 3/10 < velocidad_proyectada then
      -(velocidad_proyectada - (rango.2 + 1/5)) * 10
    else if velocidad_proyectada < rango.1 - 3/10 then
      ((rango.1 - 1/5) - velocidad_proyectada) * 6
    else 0
  let control1 := control0 + accion_correctiva
  -- 6. zone-dependent saturation
  let control :=
    if rango.2 + 1/5 < s.velocidad_actual then clip control1 (-30) 5
    else if s.velocidad_actual < rango.1 - 1/5 then clip control1 (-5) 20
    else clip control1 (-25) 25
  ({ s with tendencia := tendencia, velocidad_anterior := velocidad_anterior,
            integral := integral, error_anterior_kmh := error_kmh },
   { control := control, P := P, I := I, D := D,
     accion_correctiva := accion_correctiva })

/-- Tick `actualizar_sistema(perturbacion, velocidad_nominal)`: one simulation tick
(target override, error in volts, controller, command-to-voltage, plant
dynamics, disturbance, speed, history append; console log omitted — pure
side effect). -/
def actualizar_sistema (s : Estado) (perturbacion : ℚ)
    (velocidad_nominal : Option ℚ) : Estado :=
  let nominal := velocidad_nominal.getD s.velocidad_nominal
  let tiempo_transcurrido := s.tiempo_transcurrido + dt
  let voltaje_nominal := velocidad_a_voltaje nominal
  let voltaje_actual := velocidad_a_voltaje s.velocidad_actual
  let error_volts := voltaje_nominal - voltaje_actual
  let sr := calcular_control_proporcional_inteligente
    { s with velocidad_nominal := nominal } error_volts
  let s1 := sr.1
  let r := sr.2
  let senal_control_volts := senal_control_a_voltaje r.control
  let error_kmh := nominal - s.velocidad_actual
  let ganancia_base : ℚ :=
    if ¬ esta_en_rango_objetivo nominal s.velocidad_actual then 18 * (13/10)
    else 18
  let rpm_cambio := r.control * ganancia_base
  let rpm_ctrl := clip (s.rpm_ctrl + rpm_cambio * dt) 4700 6300
  let perturbacion_atenuada := aplicar_perturbacion_atenuada perturbacion
  let rpm_reales := clip (rpm_ctrl + perturbacion_atenuada) 4700 6300
  let velocidad_actual :=
    clip (rpm_reales / rpm_nominal * nominal) velocidad_min velocidad_max
  let tiempo_actual :=
    match s.historial_tiempo.getLast? with
    | some t => t + dt
    | none => 0
  { s1 with
    velocidad_nominal := nominal
    tiempo_transcurrido := tiempo_transcurrido
    error_volts := error_volts
    senal_control_interna := r.control
    senal_control_volts := senal_control_volts
    error_kmh := error_kmh
    rpm_ctrl := rpm_ctrl
    rpm_reales := rpm_reales
    velocidad_actual := velocidad_actual
    retroalimentacion := velocidad_actual
    historial_tiempo := appendMax max_points s.historial_tiempo tiempo_actual
    historial_entrada := appendMax max_points s.historial_entrada nominal
    historial_salida := appendMax max_points s.historial_salida velocidad_actual
    historial_error_kmh := appendMax max_points s.historial_error_kmh error_kmh
    historial_error_volts := appendMax max_points s.historial_error_volts error_volts
    historial_control_interna :=
      appendMax max_points s.historial_control_interna r.control
    historial_control_volts :=
      appendMax max_points s.historial_control_volts senal_control_volts
    historial_perturbacion := appendMax max_points s.historial_perturbacion perturbacion
    historial_retro := appendMax max_points s.historial_retro velocidad_actual
    historial_proporcional := appendMax max_points s.historial_proporcional r.P
    historial_integral := appendMax max_points s.historial_integral r.I
    historial_derivativo := appendMax max_points s.historial_derivativo r.D
    historial_rpm_ctrl := appendMax max_points s.historial_rpm_ctrl rpm_ctrl
    historial_rpm_reales := appendMax max_points s.historial_rpm_reales rpm_reales
    historial_en_rango := appendMax max_points s.historial_en_rango
      (esta_en_rango_objetivo nominal velocidad_actual) }

/-- The state built by `__init__` (history deques preloaded with 5 samples). -/
def init : Estado :=
  { velocidad_nominal := 80
    velocidad_actual := 70
    rpm_ctrl := 4812
    rpm_reales := 4812
    error_kmh := 0
    error_volts := 0
    senal_control_interna := 0
    senal_control_volts := 0
    perturbacion := 0
    retroalimentacion := 0
    tiempo_transcurrido := 0
    integral := 0
    error_anterior_kmh := 0
    velocidad_anterior := 70
    tendencia := 0
    historial_tiempo := [0, 1/10, 2/10, 3/10, 4/10]
    historial_entrada := List.replicate 5 80
    historial_salida := List.replicate 5 70
    historial_error_kmh := List.replicate 5 0
    historial_error_volts := List.replicate 5 0
    historial_control_interna := List.replicate 5 0
    historial_control_volts := List.replicate 5 (5/2)
    historial_perturbacion := List.replicate 5 0
    historial_retro := List.replicate 5 70
    historial_proporcional := List.replicate 5 0
    historial_integral := List.replicate 5 0
    historial_derivativo := List.replicate 5 0
    historial_rpm_ctrl := List.replicate 5 4812
    historial_rpm_reales := List.replicate 5 4812
    historial_en_rango := List.replicate 5 (esta_en_rango_objetivo 80 70) }

/-- Run a sequence of ticks from `init`; each input is a pair
(raw disturbance, optional target override). -/
def run (inputs : List (ℚ × Option ℚ)) : Estado :=
  inputs.foldl (fun s i => actualizar_sistema s i.1 i.2) init

/-- Bounds `5 ≤ length ≤ max_points`: the length discipline of every history deque. -/
def hist_ok {α : Type} (l : List α) : Prop :=
  5 ≤ l.length ∧ l.length ≤ max_points

/-- All fifteen history deques satisfy `hist_ok`. -/
def historiales_longitudes_ok (s : Estado) : Prop :=
  hist_ok s.historial_tiempo ∧ hist_ok s.historial_entrada ∧
  hist_ok s.historial_salida ∧ hist_ok s.historial_error_kmh ∧
  hist_ok s.historial_error_volts ∧ hist_ok s.historial_control_volts ∧
  hist_ok s.historial_control_interna ∧ hist_ok s.historial_perturbacion ∧
  hist_ok s.historial_retro ∧ hist_ok s.historial_proporcional ∧
  hist_ok s.historial_integral ∧ hist_ok s.historial_derivativo ∧
  hist_ok s.historial_rpm_ctrl ∧ hist_ok s.historial_rpm_reales ∧
  hist_ok s.historial_en_rango

end SistemaControlMotor

open SistemaControlMotor

section Lemas

lemma clip_bounds (x lo hi : ℚ) (h : lo ≤ hi) :
    lo ≤ clip x lo hi ∧ clip x lo hi ≤ hi :=
  ⟨le_min (le_max_right x lo) h, min_le_right _ _⟩

lemma clip_of_mem (x lo hi : ℚ) (h1 : lo ≤ x) (h2 : x ≤ hi) :
    clip x lo hi = x := by
  unfold clip
  rw [max_eq_left h1, min_eq_left h2]

lemma actualizar_velocidad_clip (s : Estado) (p : ℚ) (t : Option ℚ) :
    ∃ x, (actualizar_sistema s p t).velocidad_actual
      = clip x velocidad_min velocidad_max :=
  ⟨_, rfl⟩

lemma actualizar_rpm_ctrl_clip (s : Estado) (p : ℚ) (t : Option ℚ) :
    ∃ x, (actualizar_sistema s p t).rpm_ctrl = clip x 4700 6300 :=
  ⟨_, rfl⟩

lemma actualizar_rpm_reales_clip (s : Estado) (p : ℚ) (t : Option ℚ) :
    ∃ x, (actualizar_sistema s p t).rpm_reales = clip x 4700 6300 :=
  ⟨_, rfl⟩

end Lemas

section LemasIntegral

lemma calcular_integral_formula (s : Estado) (e : ℚ) :
    (calcular_control_proporcional_inteligente s e).1.integral =
      if esta_en_rango_objetivo s.velocidad_nominal s.velocidad_actual
          ∧ |error_volts_a_kmh e| < 1 then
        clip (s.integral + error_volts_a_kmh e * dt * (1/50)) (-2) 2
      else s.integral * (9/10) := rfl

lemma calcular_integral_bound (s : Estado) (e : ℚ) (h : |s.integral| ≤ 2) :
    |(calcular_control_proporcional_inteligente s e).1.integral| ≤ 2 := by
  rw [calcular_integral_formula]
  split_ifs with hc
  · have hb := clip_bounds (s.integral + error_volts_a_kmh e * dt * (1/50))
      (-2) 2 (by norm_num)
    exact abs_le.mpr hb
  · rw [abs_mul]
    have h9 : |(9/10 : ℚ)| = 9/10 := by norm_num
    rw [h9]
    nlinarith [abs_nonneg s.integral]

lemma actualizar_integral_eq (s : Estado) (p : ℚ) (t : Option ℚ) :
    (actualizar_sistema s p t).integral =
      (calcular_control_proporcional_inteligente
        { s with velocidad_nominal := t.getD s.velocidad_nominal }
        (velocidad_a_voltaje (t.getD s.velocidad_nominal)
          - velocidad_a_voltaje s.velocidad_actual)).1.integral := rfl

lemma integral_paso (s : Estado) (p : ℚ) (t : Option ℚ) (h : |s.integral| ≤ 2) :
    |(actualizar_sistema s p t).integral| ≤ 2 := by
  rw [actualizar_integral_eq]
  exact calcular_integral_bound _ _ h

lemma integral_foldl (l : List (ℚ × Option ℚ)) : ∀ s : Estado,
    |s.integral| ≤ 2 →
    |(l.foldl (fun s i => actualizar_sistema s i.1 i.2) s).integral| ≤ 2 := by
  induction l with
  | nil => exact fun s h => h
  | cons i rest ih => exact fun s h => ih _ (integral_paso s i.1 i.2 h)

end LemasIntegral

/-- C3: starting from `init` (where `integral = 0`), for any sequence of ticks
the magnitude of the integral accumulator never exceeds its anti-windup bound:
`|integral| ≤ 2` after every tick (the eligible branch clamps to `[-2, 2]`,
the other branch scales by `0.9`). -/
theorem integral_magnitud_acotada (inputs : List (ℚ × Option ℚ)) :
    |(run inputs).integral| ≤ 2 :=
  integral_foldl inputs init (by norm_num [init])

/-- C1: for every sequence of ticks with any disturbance and target inputs,
after each call to `actualizar_sistema` the field `velocidad_actual` lies
within `[velocidad_min, velocidad_max] = [50, 100]`. -/
theorem velocidad_actual_dentro_de_limites
    (inputs : List (ℚ × Option ℚ)) (p : ℚ) (t : Option ℚ) :
    velocidad_min ≤ (actualizar_sistema (run inputs) p t).velocidad_actual ∧
    (actualizar_sistema (run inputs) p t).velocidad_actual ≤ velocidad_max := by
  obtain ⟨x, hx⟩ := actualizar_velocidad_clip (run inputs) p t
  rw [hx]
  exact clip_bounds x _ _ (by norm_num [velocidad_min, velocidad_max])

/-- C2: for every sequence of ticks with any disturbance and target inputs,
after each call to `actualizar_sistema` both `rpm_ctrl` and `rpm_reales` lie
within `[4700, 6300]`. -/
theorem rpm_dentro_de_limites
    (inputs : List (ℚ × Option ℚ)) (p : ℚ) (t : Option ℚ) :
    (4700 ≤ (actualizar_sistema (run inputs) p t).rpm_ctrl ∧
      (actualizar_sistema (run inputs) p t).rpm_ctrl ≤ 6300) ∧
    (4700 ≤ (actualizar_sistema (run inputs) p t).rpm_reales ∧
      (actualizar_sistema (run inputs) p t).rpm_reales ≤ 6300) := by
  obtain ⟨x, hx⟩ := actualizar_rpm_ctrl_clip (run inputs) p t
  obtain ⟨y, hy⟩ := actualizar_rpm_reales_clip (run inputs) p t
  rw [hx, hy]
  exact ⟨clip_bounds x _ _ (by norm_num), clip_bounds y _ _ (by norm_num)⟩

section LemasProporcional

lemma en_rango_iff (n v : ℚ) : esta_en_rango_objetivo n v = true ↔
    (get_rango_objetivo n).1 ≤ v ∧ v ≤ (get_rango_objetivo n).2 := by
  simp [esta_en_rango_objetivo]

lemma rango_objetivo_eq (n : ℚ) :
    (get_rango_objetivo n).1 = n - 2 ∧ (get_rango_objetivo n).2 = n + 1 := by
  constructor
  · show n + rango_offset_min = n - 2
    rw [rango_offset_min]
    ring
  · show n + rango_offset_max = n + 1
    rw [rango_offset_max]

lemma calcular_P_formula (s : Estado) (e : ℚ) :
    (calcular_control_proporcional_inteligente s e).2.P =
      if ¬ esta_en_rango_objetivo s.velocidad_nominal s.velocidad_actual then
        if (get_rango_objetivo s.velocidad_nominal).2 < s.velocidad_actual then
          Kp * (3/2) * (s.velocidad_nominal - s.velocidad_actual)
        else
          Kp * (13/10) * (s.velocidad_nominal - s.velocidad_actual)
      else
        if s.velocidad_nominal + 3/10 < s.velocidad_actual
            ∨ s.velocidad_actual < s.velocidad_nominal - 3/10 then
          Kp * (7/10) * error_volts_a_kmh e
        else Kp * error_volts_a_kmh e := by
  unfold calcular_control_proporcional_inteligente
  dsimp only
  split_ifs <;> rfl

end LemasProporcional

/-- C4: the proportional term of `calcular_control_proporcional_inteligente`
is gain-scheduled exactly as follows: above the tolerance band,
`P = (Kp * 1.5) * (velocidad_nominal - velocidad_actual)`; below the band,
`P = (Kp * 1.3) * (velocidad_nominal - velocidad_actual)`; inside the band,
`P = Kp * error_kmh`, with `Kp` further multiplied by `0.7` when
`|velocidad_actual - velocidad_nominal| > 0.3`. -/
theorem proporcional_con_ganancia_programada (s : Estado) (e : ℚ) :
    ((get_rango_objetivo s.velocidad_nominal).2 < s.velocidad_actual →
      (calcular_control_proporcional_inteligente s e).2.P
        = Kp * (3/2) * (s.velocidad_nominal - s.velocidad_actual)) ∧
    (s.velocidad_actual < (get_rango_objetivo s.velocidad_nominal).1 →
      (calcular_control_proporcional_inteligente s e).2.P
        = Kp * (13/10) * (s.velocidad_nominal - s.velocidad_actual)) ∧
    ((get_rango_objetivo s.velocidad_nominal).1 ≤ s.velocidad_actual →
      s.velocidad_actual ≤ (get_rango_objetivo s.velocidad_nominal).2 →
      3/10 < |s.velocidad_actual - s.velocidad_nominal| →
      (calcular_control_proporcional_inteligente s e).2.P
        = Kp * (7/10) * error_volts_a_kmh e) ∧
    ((get_rango_objetivo s.velocidad_nominal).1 ≤ s.velocidad_actual →
      s.velocidad_actual ≤ (get_rango_objetivo s.velocidad_nominal).2 →
      |s.velocidad_actual - s.velocidad_nominal| ≤ 3/10 →
      (calcular_control_proporcional_inteligente s e).2.P
        = Kp * error_volts_a_kmh e) := by
  obtain ⟨hr1, hr2⟩ := rango_objetivo_eq s.velocidad_nominal
  refine ⟨?_, ?_, ?_, ?_⟩
  · intro h
    rw [calcular_P_formula]
    have hnr : ¬ esta_en_rango_objetivo s.velocidad_nominal s.velocidad_actual
        = true := by
      rw [en_rango_iff]
      rintro ⟨-, h2⟩
      linarith
    rw [if_pos hnr, if_pos h]
  · intro h
    rw [calcular_P_formula]
    have hnr : ¬ esta_en_rango_objetivo s.velocidad_nominal s.velocidad_actual
        = true := by
      rw [en_rango_iff]
      rintro ⟨h1, -⟩
      linarith
    have hno : ¬ (get_rango_objetivo s.velocidad_nominal).2
        < s.velocidad_actual := by
      rw [hr2]
      rw [hr1] at h
      linarith
    rw [if_pos hnr, if_neg hno]
  · intro h1 h2 h3
    rw [calcular_P_formula]
    have hin : esta_en_rango_objetivo s.velocidad_nominal s.velocidad_actual
        = true := (en_rango_iff _ _).mpr ⟨h1, h2⟩
    rw [if_neg (not_not_intro hin)]
    have hc : s.velocidad_nominal + 3/10 < s.velocidad_actual
        ∨ s.velocidad_actual < s.velocidad_nominal - 3/10 := by
      rcases lt_abs.mp h3 with h | h
      · exact Or.inl (by linarith)
      · exact Or.inr (by linarith)
    rw [if_pos hc]
  · intro h1 h2 h3
    rw [calcular_P_formula]
    have hin : esta_en_rango_objetivo s.velocidad_nominal s.velocidad_actual
        = true := (en_rango_iff _ _).mpr ⟨h1, h2⟩
    rw [if_neg (not_not_intro hin)]
    obtain ⟨ha, hb⟩ := abs_le.mp h3
    have hc : ¬ (s.velocidad_nominal + 3/10 < s.velocidad_actual
        ∨ s.velocidad_actual < s.velocidad_nominal - 3/10) := by
      rintro (h | h) <;> linarith
    rw [if_neg hc]

/-- Witness for C4: `init` has `velocidad_actual = 70` below the band
`[78, 81]`, so the below-band schedule applies at error 1 V. -/
theorem proporcional_con_ganancia_programada_witness :
    init.velocidad_actual < (get_rango_objetivo init.velocidad_nominal).1 ∧
    (calcular_control_proporcional_inteligente init 1).2.P
      = Kp * (13/10) * (init.velocidad_nominal - init.velocidad_actual) := by
  have h : init.velocidad_actual
      < (get_rango_objetivo init.velocidad_nominal).1 := by
    norm_num [init, get_rango_objetivo, rango_offset_min]
  exact ⟨h, (proporcional_con_ganancia_programada init 1).2.1 h⟩

/-- The summed command `P + I + D + accion_correctiva` before the final
zone-dependent saturation of `calcular_control_proporcional_inteligente`. -/
def comando_sumado (r : ResultadoControl) : ℚ :=
  r.P + r.I + r.D + r.accion_correctiva

section LemasSaturacion

lemma calcular_control_formula (s : Estado) (e : ℚ) :
    (calcular_control_proporcional_inteligente s e).2.control =
      if (get_rango_objetivo s.velocidad_nominal).2 + 1/5 < s.velocidad_actual then
        clip (comando_sumado (calcular_control_proporcional_inteligente s e).2)
          (-30) 5
      else if s.velocidad_actual
          < (get_rango_objetivo s.velocidad_nominal).1 - 1/5 then
        clip (comando_sumado (calcular_control_proporcional_inteligente s e).2)
          (-5) 20
      else
        clip (comando_sumado (calcular_control_proporcional_inteligente s e).2)
          (-25) 25 := by
  unfold comando_sumado calcular_control_proporcional_inteligente
  dsimp only

end LemasSaturacion

/-- C5: the summed command returned by
`calcular_control_proporcional_inteligente` is clamped to one of three
asymmetric ranges by proximity to the tolerance band: `[-30, 5]` above
`rango_max + 0.2` (only a tight positive allowance remains), `[-5, 20]`
below `rango_min - 0.2` (only a tight negative allowance remains), and the
wide symmetric `[-25, 25]` otherwise. -/
theorem saturacion_dependiente_de_zona (s : Estado) (e : ℚ) :
    ((get_rango_objetivo s.velocidad_nominal).2 + 1/5 < s.velocidad_actual →
      (calcular_control_proporcional_inteligente s e).2.control =
        clip (comando_sumado (calcular_control_proporcional_inteligente s e).2)
          (-30) 5) ∧
    (s.velocidad_actual < (get_rango_objetivo s.velocidad_nominal).1 - 1/5 →
      (calcular_control_proporcional_inteligente s e).2.control =
        clip (comando_sumado (calcular_control_proporcional_inteligente s e).2)
          (-5) 20) ∧
    (s.velocidad_actual ≤ (get_rango_objetivo s.velocidad_nominal).2 + 1/5 →
      (get_rango_objetivo s.velocidad_nominal).1 - 1/5 ≤ s.velocidad_actual →
      (calcular_control_proporcional_inteligente s e).2.control =
        clip (comando_sumado (calcular_control_proporcional_inteligente s e).2)
          (-25) 25) := by
  obtain ⟨hr1, hr2⟩ := rango_objetivo_eq s.velocidad_nominal
  refine ⟨?_, ?_, ?_⟩
  · intro h
    rw [calcular_control_formula, if_pos h]
  · intro h
    rw [calcular_control_formula]
    have hno : ¬ (get_rango_objetivo s.velocidad_nominal).2 + 1/5
        < s.velocidad_actual := by
      rw [hr2]
      rw [hr1] at h
      linarith
    rw [if_neg hno, if_pos h]
  · intro h1 h2
    rw [calcular_control_formula, if_neg (not_lt.mpr h1),
      if_neg (not_lt.mpr h2)]

/-- Witness for C5: at `init` (`velocidad_actual = 70`, band `[78, 81]`) the
speed is below `rango_min - 0.2`, so the `[-5, 20]` clamp applies. -/
theorem saturacion_dependiente_de_zona_witness :
    init.velocidad_actual < (get_rango_objetivo init.velocidad_nominal).1 - 1/5 ∧
    (calcular_control_proporcional_inteligente init 1).2.control =
      clip (comando_sumado (calcular_control_proporcional_inteligente init 1).2)
        (-5) 20 := by
  have h : init.velocidad_actual
      < (get_rango_objetivo init.velocidad_nominal).1 - 1/5 := by
    norm_num [init, get_rango_objetivo, rango_offset_min]
  exact ⟨h, (saturacion_dependiente_de_zona init 1).2.1 h⟩

/-- C6 counterexample: the disturbance shaper is NOT idempotent.  At raw
input 100 one application gives `clip 100 [-100,200] * 0.3 = 30`, but a
second application gives `30 * 0.3 = 9 ≠ 30`. -/
theorem perturbacion_no_idempotente :
    aplicar_perturbacion_atenuada (aplicar_perturbacion_atenuada 100)
      ≠ aplicar_perturbacion_atenuada 100 := by
  norm_num [aplicar_perturbacion_atenuada, clip,
    factor_atenuacion_perturbacion]

/-- C6 amended: only the clamping stage of the disturbance shaper is
idempotent; the full shaper composed with itself applies the attenuation
factor a second time: for every raw input `x`,
`clip (clip x) = clip x` and
`aplicar_perturbacion_atenuada (aplicar_perturbacion_atenuada x)
  = 0.3 * aplicar_perturbacion_atenuada x`, so applying the shaper twice
equals applying it once exactly when the clamped disturbance is zero. -/
theorem perturbacion_clamp_idempotente_y_doble_atenuacion (x : ℚ) :
    clip (clip x (-100) 200) (-100) 200 = clip x (-100) 200 ∧
    aplicar_perturbacion_atenuada (aplicar_perturbacion_atenuada x)
      = factor_atenuacion_perturbacion * aplicar_perturbacion_atenuada x := by
  obtain ⟨hlo, hhi⟩ := clip_bounds x (-100) 200 (by norm_num)
  constructor
  · exact clip_of_mem _ _ _ hlo hhi
  · unfold aplicar_perturbacion_atenuada factor_atenuacion_perturbacion
    rw [clip_of_mem (clip x (-100) 200 * (3/10)) (-100) 200
      (by linarith) (by linarith)]
    ring

/-- C7: for every speed `s` in the sensor range `[50, 100]`, the round trip
`voltaje_a_velocidad (velocidad_a_voltaje s)` recovers `s` exactly (the
embedding works in exact rational arithmetic). -/
theorem conversion_ida_y_vuelta (s : ℚ) (h1 : vss_vel_min ≤ s)
    (h2 : s ≤ vss_vel_max) :
    voltaje_a_velocidad (velocidad_a_voltaje s) = s := by
  rw [vss_vel_min] at h1
  rw [vss_vel_max] at h2
  unfold velocidad_a_voltaje voltaje_a_velocidad
  rw [if_neg (by norm_num [vss_volt_max, vss_volt_min]),
    if_neg (by norm_num [vss_vel_max, vss_vel_min])]
  rw [vss_vel_min, vss_vel_max, vss_volt_min, vss_volt_max]
  rw [clip_of_mem ((s - 50) / (100 - 50) * (5 - 0) + 0) 0 5
    (by nlinarith) (by nlinarith)]
  ring

/-- Witness for C7 at `s = 75`. -/
theorem conversion_ida_y_vuelta_witness :
    vss_vel_min ≤ (75 : ℚ) ∧ (75 : ℚ) ≤ vss_vel_max ∧
    voltaje_a_velocidad (velocidad_a_voltaje 75) = 75 := by
  have h1 : vss_vel_min ≤ (75 : ℚ) := by norm_num [vss_vel_min]
  have h2 : (75 : ℚ) ≤ vss_vel_max := by norm_num [vss_vel_max]
  exact ⟨h1, h2, conversion_ida_y_vuelta 75 h1 h2⟩

/-- C8: the derivative quotient inside
`calcular_control_proporcional_inteligente` is guarded by `dt > 0`: at
`dt = 0` (and any non-positive `dt`) it returns `0` instead of dividing,
and for positive `dt` it is the difference quotient; the branch is total. -/
theorem derivativo_protegido_en_dt_cero :
    (∀ e ep : ℚ, derivativo_termino 0 e ep = 0) ∧
    (∀ d e ep : ℚ, d ≤ 0 → derivativo_termino d e ep = 0) ∧
    (∀ d e ep : ℚ, 0 < d → derivativo_termino d e ep = (e - ep) / d) := by
  refine ⟨fun e ep => ?_, fun d e ep hd => ?_, fun d e ep hd => ?_⟩
  · simp [derivativo_termino]
  · rw [derivativo_termino, if_neg (not_lt.mpr hd)]
  · rw [derivativo_termino, if_pos hd]

/-- Witness for C8: `dt = 0` and `dt = -1` yield 0; `dt = 1/10` divides. -/
theorem derivativo_protegido_en_dt_cero_witness :
    derivativo_termino 0 5 3 = 0 ∧
    ((-1 : ℚ) ≤ 0 ∧ derivativo_termino (-1) 5 3 = 0) ∧
    ((0 : ℚ) < 1/10 ∧ derivativo_termino (1/10) 5 3 = (5 - 3) / (1/10)) := by
  refine ⟨derivativo_protegido_en_dt_cero.1 5 3,
    ⟨by norm_num, derivativo_protegido_en_dt_cero.2.1 (-1) 5 3 (by norm_num)⟩,
    ⟨by norm_num, derivativo_protegido_en_dt_cero.2.2 (1/10) 5 3 (by norm_num)⟩⟩

/-- C9: `__init__` takes no `dt` parameter and hard-codes `dt = 0.1`, so a
system with `dt ≤ 0` cannot be constructed at all — the misconfiguration the
spec demands be rejected is unrepresentable at construction time — and the
tick-time derivative division is well-defined (no divide-by-zero): at the
constructed `dt` the guard `dt > 0` always takes the division branch. -/
theorem dt_positivo_por_construccion :
    dt = 1/10 ∧ 0 < dt ∧
    ∀ e ep : ℚ, derivativo_termino dt e ep = (e - ep) / dt := by
  refine ⟨rfl, by norm_num [dt], fun e ep => ?_⟩
  rw [derivativo_termino, if_pos (by norm_num [dt])]

section LemasHistorial

lemma hist_ok_append {α : Type} (xs : List α) (x : α) (h : hist_ok xs) :
    hist_ok (appendMax max_points xs x) := by
  obtain ⟨h5, h150⟩ := h
  simp only [max_points] at h150
  simp only [hist_ok, appendMax, max_points]
  split_ifs with hc
  · simp only [List.length_append, List.length_tail, List.length_cons,
      List.length_nil]
    constructor <;> omega
  · simp only [List.length_append, List.length_cons, List.length_nil]
    constructor <;> omega

lemma historiales_paso (s : Estado) (p : ℚ) (t : Option ℚ)
    (h : historiales_longitudes_ok s) :
    historiales_longitudes_ok (actualizar_sistema s p t) := by
  obtain ⟨h1, h2, h3, h4, h5, h6, h7, h8, h9, h10, h11, h12, h13, h14, h15⟩ := h
  exact ⟨hist_ok_append _ _ h1, hist_ok_append _ _ h2, hist_ok_append _ _ h3,
    hist_ok_append _ _ h4, hist_ok_append _ _ h5, hist_ok_append _ _ h6,
    hist_ok_append _ _ h7, hist_ok_append _ _ h8, hist_ok_append _ _ h9,
    hist_ok_append _ _ h10, hist_ok_append _ _ h11, hist_ok_append _ _ h12,
    hist_ok_append _ _ h13, hist_ok_append _ _ h14, hist_ok_append _ _ h15⟩

lemma historiales_foldl (l : List (ℚ × Option ℚ)) : ∀ s : Estado,
    historiales_longitudes_ok s →
    historiales_longitudes_ok
      (l.foldl (fun s i => actualizar_sistema s i.1 i.2) s) := by
  induction l with
  | nil => exact fun s h => h
  | cons i rest ih => exact fun s h => ih _ (historiales_paso s i.1 i.2 h)

lemma historiales_init : historiales_longitudes_ok init := by
  refine ⟨?_, ?_, ?_, ?_, ?_, ?_, ?_, ?_, ?_, ?_, ?_, ?_, ?_, ?_, ?_⟩ <;>
    simp [init, hist_ok, max_points]

lemma historiales_run (inputs : List (ℚ × Option ℚ)) :
    historiales_longitudes_ok (run inputs) :=
  historiales_foldl inputs init historiales_init

lemma actualizar_tendencia_eq (s : Estado) (p : ℚ) (t : Option ℚ) :
    (actualizar_sistema s p t).tendencia =
      (calcular_control_proporcional_inteligente
        { s with velocidad_nominal := t.getD s.velocidad_nominal }
        (velocidad_a_voltaje (t.getD s.velocidad_nominal)
          - velocidad_a_voltaje s.velocidad_actual)).1.tendencia := rfl

lemma calcular_tendencia_formula (s : Estado) (e : ℚ) :
    (calcular_control_proporcional_inteligente s e).1.tendencia =
      if 2 ≤ s.historial_salida.length then
        (s.velocidad_actual - s.velocidad_anterior) / dt
      else s.tendencia := rfl

end LemasHistorial

/-- C10: the constructor preloads 5 samples into every history deque and each
tick only appends, so every history length stays in `[5, 150]`; in particular
the guard `len(historial_salida) >= 2` holds on every tick after
construction, so the trend `(velocidad_actual - velocidad_anterior) / dt` is
recomputed on every single tick, never skipped. -/
theorem historiales_precargados_y_tendencia_recalculada
    (inputs : List (ℚ × Option ℚ)) (p : ℚ) (t : Option ℚ) :
    historiales_longitudes_ok (run inputs) ∧
    2 ≤ (run inputs).historial_salida.length ∧
    (actualizar_sistema (run inputs) p t).tendencia =
      ((run inputs).velocidad_actual - (run inputs).velocidad_anterior) / dt := by
  have hok := historiales_run inputs
  have h2 : 2 ≤ (run inputs).historial_salida.length := by
    have := hok.2.2.1.1
    omega
  refine ⟨hok, h2, ?_⟩
  rw [actualizar_tendencia_eq, calcular_tendencia_formula]
  exact if_pos h2
